import Mathlib

/-!
Shallow embedding of the deal-evaluation pipeline of `src/server.mjs`
(arb-backend): fee estimation, unit economics, scoring, decision
classification, product normalisation (`productToDeal`), the
`/deals/today` filtering/sorting pipeline and the `/arbitrage/score`
handler.  JavaScript numbers are modelled as rationals (the provider
reports prices as integer cents, so no floating-point artefacts are
load-bearing); JavaScript `null`/`undefined` is modelled as `Option`;
a thrown exception is modelled as `Except.error`.
-/

namespace Arb

/-- JavaScript `Math.round`: round half toward positive infinity. -/
def jsRound (x : ℚ) : ℤ := ⌊x + 1/2⌋

/-- Embeds `Number(x.toFixed(2))`: round to two decimal places. -/
def round2 (x : ℚ) : ℚ := (jsRound (x * 100) : ℚ) / 100

/-- Embeds `Number(x.toFixed(1))`: round to one decimal place. -/
def round1 (x : ℚ) : ℚ := (jsRound (x * 10) : ℚ) / 10

/-- One entry of the provider's live-offers list (`p.offers`).  An offer
object with the flag absent behaves exactly like `false` in every use
site (`o.isFBA`, `o.isBuyBoxWinner` in boolean position), so the flags
are plain `Bool`. -/
structure Offer where
  isFBA : Bool
  isBuyBoxWinner : Bool
deriving DecidableEq, Repr

/-- The `p.stats` object.  Every numeric field may be absent. -/
structure Stats where
  offerCountFBA : Option ℤ := none
  offerCountNewFBA : Option ℤ := none
  buyBoxPrice : Option ℤ := none
  current_NEW : Option ℤ := none
  rating : Option ℤ := none
  reviewCount : Option ℤ := none
  drops90 : Option ℤ := none
  drops30 : Option ℤ := none
  current_SALES : Option ℤ := none
deriving DecidableEq, Repr

/-- A raw Keepa product record as consumed by `productToDeal`
(`src/server.mjs` lines 84-136).  `offers` may be absent (non-array) and
its entries may be `null` (modelled as `none`). -/
structure RawProduct where
  asin : String
  title : Option String
  offers : Option (List (Option Offer))
  buyBoxPriceHistory : Option (List ℤ)
  stats : Option Stats
deriving DecidableEq, Repr

/-- The signal bundle passed to `scoreDeal` and `decide`
(`roi`, `profit`, `dropsPerMonth`, `nearbyOffers`, `reviewOk`). -/
structure SignalBundle where
  roi : ℚ
  profit : ℚ
  dropsPerMonth : Option ℤ
  nearbyOffers : Option ℤ
  reviewOk : Bool
deriving DecidableEq, Repr

/-- Embeds `scoreDeal` (`src/server.mjs` lines 61-69).  `(dropsPerMonth || 0)`
is `Option.getD 0` (for an integer, `x || 0` and `x ?? 0` agree since
`0 || 0` is `0`); `(nearbyOffers ?? 99)` is `Option.getD 99`. -/
def scoreDeal (b : SignalBundle) : ℕ :=
  (if 3/10 < b.roi then 30 else 0) +
  (if 5 < b.profit then 25 else 0) +
  (if 5 < b.dropsPerMonth.getD 0 then 20 else 0) +
  (if b.nearbyOffers.getD 99 < 5 then 15 else 0) +
  (if b.reviewOk then 10 else 0)

/-- Embeds `decide` (`src/server.mjs` lines 70-74): the BUY/WATCH/PASS
classifier.  All comparisons are strict, as in the source. -/
def decide (b : SignalBundle) : String :=
  if 3/10 < b.roi ∧ 5 < b.profit ∧ b.nearbyOffers.getD 99 < 5 then "BUY"
  else if 15/100 < b.roi ∧ 3 < b.profit then "WATCH"
  else "PASS"

/-- Result record of `estimateFbaFee`. -/
structure FeeEstimate where
  referral : ℚ
  fba : ℚ
  storageEst : ℚ
deriving DecidableEq, Repr

/-- Embeds `estimateFbaFee` (`src/server.mjs` lines 53-58). -/
def estimateFbaFee (price : ℚ) : FeeEstimate :=
  { referral := price * (15/100), fba := 35/10, storageEst := 3/10 }

/-- The `buyPrice` of `productToDeal` line 110:
`Math.max(3, Number((salePrice * 0.35).toFixed(2)))`. -/
def buyPriceOf (salePrice : ℚ) : ℚ := max 3 (round2 (salePrice * (35/100)))

/-- The `landed` cost of `productToDeal` line 112: `buyPrice + 0.5 + 0.5`. -/
def landedOf (salePrice : ℚ) : ℚ := buyPriceOf salePrice + 1/2 + 1/2

/-- The `profit` of `productToDeal` line 113. -/
def profitOf (salePrice : ℚ) : ℚ :=
  salePrice -
    ((estimateFbaFee salePrice).referral + (estimateFbaFee salePrice).fba +
      (estimateFbaFee salePrice).storageEst) -
    landedOf salePrice

/-- The `roi` of `productToDeal` line 114: `landed > 0 ? profit / landed : 0`. -/
def roiOf (salePrice : ℚ) : ℚ :=
  if 0 < landedOf salePrice then profitOf salePrice / landedOf salePrice else 0

/-- The `bbCents` of `productToDeal` lines 93-96: the last entry of a
non-empty `buyBoxPriceHistory` array, otherwise `stats.buyBoxPrice`;
the trailing `|| 0` maps an absent value to `0` (for an integer value
`v`, `v || 0` is `v` itself, because `0 || 0` is `0`). -/
def bbCents (p : RawProduct) : ℤ :=
  (match p.buyBoxPriceHistory with
    | some l => if l.isEmpty then p.stats.bind Stats.buyBoxPrice else l.getLast?
    | none => p.stats.bind Stats.buyBoxPrice).getD 0

/-- The `newCents` of `productToDeal` line 97: `p.stats?.current_NEW || 0`. -/
def newCents (p : RawProduct) : ℤ := (p.stats.bind Stats.current_NEW).getD 0

/-- The expression `bbCents || newCents` of line 98 (also duplicated verbatim in the
`/deals/today` pre-filter, lines 164-168). -/
def priceCents (p : RawProduct) : ℤ :=
  if bbCents p ≠ 0 then bbCents p else newCents p

/-- The `salePrice` of `productToDeal` line 98: `(bbCents || newCents) / 100`. -/
def salePriceOf (p : RawProduct) : ℚ := (priceCents p : ℚ) / 100

/-- The `dropsPerMonth` of `productToDeal` line 107:
`p.stats?.drops90 ? Math.round(p.stats.drops90 / 3) : p.stats?.drops30 ?? null`.
The ternary tests JavaScript truthiness, so an absent `drops90` and a
present `drops90 = 0` both take the `drops30` fallback; for an integer
option `o` truthiness is `o.getD 0 ≠ 0`. -/
def dropsPerMonthOf (p : RawProduct) : Option ℤ :=
  if (p.stats.bind Stats.drops90).getD 0 ≠ 0 then
    some (jsRound (((p.stats.bind Stats.drops90).getD 0 : ℚ) / 3))
  else p.stats.bind Stats.drops30

/-- Predicate of the guarded scans `o => o && o.isFBA` (lines 89, 163). -/
def offerIsFBA : Option Offer → Bool
  | some o => o.isFBA
  | none => false

/-- Predicate of the guarded scan `o => o && o.isFBA && o.isBuyBoxWinner`
(line 90). -/
def offerIsFbaBuyBox : Option Offer → Bool
  | some o => o.isFBA && o.isBuyBoxWinner
  | none => false

/-- The unguarded `offers.filter(o => o.isFBA)` of line 91: reading
`isFBA` off a `null` entry throws a `TypeError`, modelled as
`Except.error`. -/
def filterIsFBA : List (Option Offer) → Except String (List Offer)
  | [] => Except.ok []
  | none :: _ =>
      Except.error "TypeError: Cannot read properties of null (reading 'isFBA')"
  | some o :: rest =>
      match filterIsFBA rest with
      | Except.ok r => Except.ok (if o.isFBA then o :: r else r)
      | Except.error e => Except.error e

/-- The `fbaCount` of `productToDeal` line 91:
`(p.stats?.offerCountFBA ?? p.stats?.offerCountNewFBA ?? offers.filter(o => o.isFBA).length) || null`.
The nullish chain keeps a present `0`; the trailing `|| null` then turns
any zero count into `null`.  The unguarded filter only runs (and can
only throw) when both statistics are absent. -/
def fbaCountOf (p : RawProduct) : Except String (Option ℤ) :=
  match p.stats.bind Stats.offerCountFBA with
  | some n => Except.ok (if n ≠ 0 then some n else none)
  | none =>
    match p.stats.bind Stats.offerCountNewFBA with
    | some n => Except.ok (if n ≠ 0 then some n else none)
    | none =>
      match filterIsFBA (p.offers.getD []) with
      | Except.ok l => Except.ok (if (l.length : ℤ) ≠ 0 then some (l.length : ℤ) else none)
      | Except.error e => Except.error e

/-- Result record of `linksFor` (`src/server.mjs` lines 76-81). -/
structure Links where
  keepaProduct : String
  amazonDetailPage : String
deriving DecidableEq, Repr

/-- Embeds `linksFor` (`src/server.mjs` lines 76-81). -/
def linksFor (asin : String) : Links :=
  { keepaProduct := "https://keepa.com/#!product/US/" ++ asin,
    amazonDetailPage := "https://www.amazon.com/dp/" ++ asin }

/-- The `fba` sub-object of a Deal row (line 127). -/
structure FbaInfo where
  hasFbaOffer : Bool
  fbaWinsBuyBox : Bool
  fbaOfferCount : Option ℤ
deriving DecidableEq, Repr

/-- The `velocity` sub-object of a Deal row (line 128). -/
structure Velocity where
  dropsPerMonth : Option ℤ
  bsr : Option ℤ
deriving DecidableEq, Repr

/-- A Deal row.  The degenerate "No price data" row (line 100) omits
most fields, so they are optional here and `none` on that path. -/
structure Deal where
  asin : String
  title : Option String
  retailer : Option String
  salePrice : Option ℚ
  buyPrice : Option ℚ
  profitPerUnit : Option ℚ
  roiPct : Option ℚ
  fba : Option FbaInfo
  velocity : Option Velocity
  rating : Option ℚ
  reviewCount : Option ℤ
  score : ℕ
  decision : String
  risks : List String
  links : Links
deriving DecidableEq, Repr

/-- Embeds `productToDeal` (`src/server.mjs` lines 84-136).  The `fbaCount`
expression of line 91 runs before the price resolution of lines 93-101,
so a thrown `TypeError` there pre-empts the degenerate "No price data"
return.  The check of line 99, `!salePrice || !Number.isFinite(salePrice) || salePrice <= 0`,
collapses to `salePrice ≤ 0` over the rationals (cents are integers, so
the value is always finite, and `0` is the only falsy rational). -/
def productToDeal (p : RawProduct) : Except String Deal :=
  let offers := p.offers.getD []
  let hasFbaOffer := offers.any offerIsFBA
  let fbaWinsBuyBox := offers.any offerIsFbaBuyBox
  match fbaCountOf p with
  | Except.error e => Except.error e
  | Except.ok fbaCount =>
    let sp := salePriceOf p
    if sp ≤ 0 then
      Except.ok
        { asin := p.asin, title := p.title, retailer := none, salePrice := none,
          buyPrice := none, profitPerUnit := none, roiPct := none, fba := none,
          velocity := none, rating := none, reviewCount := none, score := 0,
          decision := "PASS", risks := ["No price data"], links := linksFor p.asin }
    else
      let rating := (p.stats.bind Stats.rating).getD 0
      let reviewCount := (p.stats.bind Stats.reviewCount).getD 0
      let reviewOk := if 40 ≤ rating ∧ 20 ≤ reviewCount then true else false
      let dpm := dropsPerMonthOf p
      let profit := profitOf sp
      let roi := roiOf sp
      let b : SignalBundle :=
        { roi := roi, profit := profit, dropsPerMonth := dpm,
          nearbyOffers := fbaCount, reviewOk := reviewOk }
      Except.ok
        { asin := p.asin, title := p.title, retailer := some "TBD",
          salePrice := some (round2 sp), buyPrice := some (round2 (buyPriceOf sp)),
          profitPerUnit := some (round2 profit), roiPct := some (round2 (roi * 100)),
          fba := some { hasFbaOffer := hasFbaOffer, fbaWinsBuyBox := fbaWinsBuyBox,
                        fbaOfferCount := fbaCount },
          velocity := some { dropsPerMonth := dpm, bsr := p.stats.bind Stats.current_SALES },
          rating := some (round1 ((rating : ℚ) / 10)), reviewCount := some reviewCount,
          score := scoreDeal b, decision := decide b, risks := [], links := linksFor p.asin }

/-- The `fbaEligible` pre-filter of `/deals/today` (lines 160-170). -/
def fbaEligible (p : RawProduct) : Bool :=
  let cnt := ((p.stats.bind Stats.offerCountFBA).orElse
    (fun _ => p.stats.bind Stats.offerCountNewFBA)).getD 0
  let hasFba := (if 0 < cnt then true else false) ||
    (match p.offers with
      | some l => l.any offerIsFBA
      | none => false)
  let price : ℚ := (priceCents p : ℚ) / 100
  hasFba && (if 10 ≤ price ∧ price ≤ 80 then true else false)

/-- Descending-score comparator used by `.sort((a, b) => b.score - a.score)`
(line 173): `a` precedes `b` when `b.score ≤ a.score`. -/
def scoreGE (a b : Deal) : Prop := b.score ≤ a.score

instance : DecidableRel scoreGE := fun a b => Nat.decLe b.score a.score

instance : IsTotal Deal scoreGE := ⟨fun a b => Nat.le_total b.score a.score⟩

instance : IsTrans Deal scoreGE := ⟨fun _ _ _ h1 h2 => Nat.le_trans h2 h1⟩

/-- Lines 173-176: sort all deals descending by score, then apply the
decision filter, then the `score >= minScore` filter. -/
def assembleDeals (dealsAll : List Deal) (minScore : ℚ) (decisionFilter : Option String) :
    List Deal :=
  ((List.insertionSort scoreGE dealsAll).filter (fun d =>
      match decisionFilter with
      | some f => d.decision == f
      | none => true)).filter
    (fun d => if minScore ≤ (d.score : ℚ) then true else false)

/-- The deal-building part of the `GET /deals/today` handler
(lines 160-178), parameterised by the already-fetched product records:
pre-filter, normalise each record, sort descending by score, apply the
caller's filters.  A `TypeError` thrown while normalising any record
aborts the whole handler (caught as a 500), modelled as `Except.error`. -/
def dealsToday (products : List RawProduct) (minScore : ℚ)
    (decisionFilter : Option String) : Except String (List Deal) :=
  match (products.filter fbaEligible).mapM productToDeal with
  | Except.error e => Except.error e
  | Except.ok dealsAll => Except.ok (assembleDeals dealsAll minScore decisionFilter)

/-- Response of the `POST /arbitrage/score` handler. -/
structure ScoreResponse where
  status : ℕ
  error : Option String
  deal : Option Deal
deriving DecidableEq, Repr

/-- JavaScript `String.prototype.trim`: strip leading and trailing
whitespace. -/
def jsTrim (s : String) : String :=
  ⟨((s.data.dropWhile Char.isWhitespace).reverse.dropWhile Char.isWhitespace).reverse⟩

/-- JavaScript `String.prototype.toUpperCase`, restricted to the ASCII
letters that product identifiers can contain. -/
def jsToUpper (s : String) : String :=
  ⟨s.data.map (fun c => if 'a' ≤ c ∧ c ≤ 'z' then Char.ofNat (c.toNat - 32) else c)⟩

/-- The `POST /arbitrage/score` handler (lines 186-202), parameterised
by the provider lookup (`keepaGetProducts [asin]`).  `!query` is true
for an absent and for an empty string; the identifier
(`String(query).trim().toUpperCase()`, bound to `asin` in the source) is
trimmed and upper-cased before the lookup. -/
def arbitrageScore (fetchProducts : String → List RawProduct) :
    Option String → ScoreResponse
  | none => { status := 400, error := some "Missing 'query' (ASIN/UPC/EAN)", deal := none }
  | some query =>
    if query = "" then
      { status := 400, error := some "Missing 'query' (ASIN/UPC/EAN)", deal := none }
    else
      match fetchProducts (jsToUpper (jsTrim query)) with
      | [] =>
        { status := 404,
          error := some ("No Keepa product found for " ++ jsToUpper (jsTrim query)),
          deal := none }
      | prod :: _ =>
        match productToDeal prod with
        | Except.ok d => { status := 200, error := none, deal := some d }
        | Except.error e => { status := 500, error := some e, deal := none }

end Arb

namespace Arb

/-- Concrete signal bundle sitting exactly on the boundary of the
thresholds claimed for the classifier. -/
def bundleC1 : SignalBundle :=
  { roi := 3/10, profit := 4, dropsPerMonth := none, nearbyOffers := some 6,
    reviewOk := false }

/-- Claim C1, counterexample: the bundle with roi = 0.30, profit = 4 and
6 competing offers satisfies the claimed BUY condition
(roi at least 0.30, profit at least 4, competing offers at most 6), yet
the classifier returns WATCH, not BUY. -/
theorem decide_claim_counterexample :
    (3/10 ≤ bundleC1.roi ∧ 4 ≤ bundleC1.profit ∧ bundleC1.nearbyOffers.getD 99 ≤ 6) ∧
    decide bundleC1 = "WATCH" ∧ decide bundleC1 ≠ "BUY" := by
  have hc1 : ¬(3/10 < bundleC1.roi ∧ 5 < bundleC1.profit ∧
      bundleC1.nearbyOffers.getD 99 < 5) := by
    rintro ⟨h, -, -⟩
    exact absurd h (lt_irrefl _)
  have hc2 : 15/100 < bundleC1.roi ∧ 3 < bundleC1.profit := by
    constructor
    · show (15:ℚ)/100 < 3/10
      norm_num
    · show (3:ℚ) < 4
      norm_num
  have hW : decide bundleC1 = "WATCH" := by
    unfold decide
    rw [if_neg hc1, if_pos hc2]
  refine ⟨⟨le_refl _, le_refl _, le_refl _⟩, hW, ?_⟩
  rw [hW]
  decide

/-- Claim C1 (amended): the classifier returns BUY iff roi > 0.30 and
profit > 5 and the competing-offer count (defaulting to 99 when
unknown) is < 5; otherwise WATCH iff roi > 0.15 and profit > 3;
otherwise PASS.  All comparisons are strict. -/
theorem decide_spec (b : SignalBundle) :
    (decide b = "BUY" ↔ (3/10 < b.roi ∧ 5 < b.profit ∧ b.nearbyOffers.getD 99 < 5)) ∧
    (decide b = "WATCH" ↔
      (¬(3/10 < b.roi ∧ 5 < b.profit ∧ b.nearbyOffers.getD 99 < 5) ∧
        (15/100 < b.roi ∧ 3 < b.profit))) ∧
    (decide b = "PASS" ↔
      (¬(3/10 < b.roi ∧ 5 < b.profit ∧ b.nearbyOffers.getD 99 < 5) ∧
        ¬(15/100 < b.roi ∧ 3 < b.profit))) := by
  unfold decide
  split_ifs with h1 h2
  · exact ⟨iff_of_true rfl h1, iff_of_false (by decide) (fun h => h.1 h1),
      iff_of_false (by decide) (fun h => h.1 h1)⟩
  · exact ⟨iff_of_false (by decide) h1, iff_of_true rfl ⟨h1, h2⟩,
      iff_of_false (by decide) (fun h => h.2 h2)⟩
  · exact ⟨iff_of_false (by decide) h1, iff_of_false (by decide) (fun h => h2 h.2),
      iff_of_true rfl ⟨h1, h2⟩⟩

/-- Claim C6: the scorer awards +30 for roi > 0.30, +25 for profit > 5,
+20 for more than 5 drops per month (unknown treated as 0), +15 for a
known competing-offer count below 5 (unknown treated as 99), +10 for
acceptable reviews, sums the awards with no further clamping, always
lands in [0, 100], and is deterministic. -/
theorem scoreDeal_spec (b : SignalBundle) :
    scoreDeal b =
      (if 3/10 < b.roi then 30 else 0) + (if 5 < b.profit then 25 else 0) +
      (if 5 < b.dropsPerMonth.getD 0 then 20 else 0) +
      (if b.nearbyOffers.getD 99 < 5 then 15 else 0) +
      (if b.reviewOk then 10 else 0) ∧
    scoreDeal b ≤ 100 ∧
    (∀ b' : SignalBundle, b = b' → scoreDeal b = scoreDeal b') := by
  refine ⟨rfl, ?_, fun b' h => by rw [h]⟩
  unfold scoreDeal
  split_ifs <;> omega

/-- Witness for `scoreDeal_spec` at a concrete bundle. -/
theorem scoreDeal_spec_witness :
    scoreDeal { roi := 2/5, profit := 6, dropsPerMonth := some 10, nearbyOffers := some 2,
                reviewOk := true } ≤ 100 ∧
    scoreDeal { roi := 2/5, profit := 6, dropsPerMonth := some 10, nearbyOffers := some 2,
                reviewOk := true } =
      scoreDeal { roi := 2/5, profit := 6, dropsPerMonth := some 10, nearbyOffers := some 2,
                  reviewOk := true } :=
  ⟨(scoreDeal_spec _).2.1, (scoreDeal_spec _).2.2 _ rfl⟩

/-- Claim C10: whenever the classifier returns BUY, the scorer awards at
least the +30, +25 and +15 points for the three BUY conditions, so the
score is at least 70. -/
theorem buy_implies_score_ge_70 (b : SignalBundle) (h : decide b = "BUY") :
    70 ≤ scoreDeal b := by
  unfold decide at h
  split_ifs at h with h1 h2
  · obtain ⟨hr, hp, hn⟩ := h1
    unfold scoreDeal
    rw [if_pos hr, if_pos hp, if_pos hn]
    split_ifs <;> omega
  · exact absurd h (by decide)
  · exact absurd h (by decide)

/-- A concrete bundle that the classifier marks BUY. -/
def bundleBuy : SignalBundle :=
  { roi := 2/5, profit := 6, dropsPerMonth := none, nearbyOffers := some 2,
    reviewOk := false }

/-- Witness for `buy_implies_score_ge_70`: a concrete bundle classified
BUY whose score is at least 70. -/
theorem buy_implies_score_ge_70_witness :
    decide bundleBuy = "BUY" ∧ 70 ≤ scoreDeal bundleBuy := by
  have hc : 3/10 < bundleBuy.roi ∧ 5 < bundleBuy.profit ∧
      bundleBuy.nearbyOffers.getD 99 < 5 := by
    refine ⟨?_, ?_, ?_⟩
    · show (3:ℚ)/10 < 2/5
      norm_num
    · show (5:ℚ) < 6
      norm_num
    · show (2:ℤ) < 5
      norm_num
  have hB : decide bundleBuy = "BUY" := by
    unfold decide
    rw [if_pos hc]
  exact ⟨hB, buy_implies_score_ge_70 _ hB⟩

end Arb

namespace Arb

/-- Claim C2, counterexample: at sale price $10 the code floors the
acquisition cost at $3, giving a buy price of $3.50, while the claimed
$5 floor would give $5; consequently the profit the code computes,
$0.20, differs from the −$1.30 the claimed formula yields. -/
theorem unitEconomics_claim_counterexample :
    buyPriceOf 10 = 7/2 ∧
    max (5:ℚ) (round2 (10 * (35/100))) = 5 ∧
    profitOf 10 = 1/5 ∧
    10 - ((estimateFbaFee 10).referral + (estimateFbaFee 10).fba +
        (estimateFbaFee 10).storageEst) - (max (5:ℚ) (round2 (10 * (35/100))) + 1) =
      -13/10 ∧
    (1/5 : ℚ) ≠ -13/10 := by
  have hr2 : round2 ((10:ℚ) * (35/100)) = 7/2 := by
    unfold round2 jsRound
    norm_num
  have hbp : buyPriceOf 10 = 7/2 := by
    unfold buyPriceOf
    rw [hr2]
    norm_num
  have hmax5 : max (5:ℚ) (round2 (10 * (35/100))) = 5 := by
    rw [hr2]
    norm_num
  have hprofit : profitOf 10 = 1/5 := by
    unfold profitOf landedOf estimateFbaFee
    rw [hbp]
    norm_num
  refine ⟨hbp, hmax5, hprofit, ?_, by norm_num⟩
  rw [hmax5]
  unfold estimateFbaFee
  norm_num

/-- Claim C2 (amended): for every positive sale price the acquisition
cost is 35 percent of the sale price rounded to cents and floored at an
absolute minimum of $3 (not the claimed $5); the landed adders total
exactly $1.00; profit is the sale price minus the estimated fees minus
the landed cost; and the landed cost is always at least $4, so the roi
is always profit divided by the landed cost. -/
theorem unitEconomics_spec (salePrice : ℚ) (_hp : 0 < salePrice) :
    buyPriceOf salePrice = max 3 (round2 (salePrice * (35/100))) ∧
    landedOf salePrice = buyPriceOf salePrice + 1 ∧
    profitOf salePrice = salePrice -
      ((estimateFbaFee salePrice).referral + (estimateFbaFee salePrice).fba +
        (estimateFbaFee salePrice).storageEst) - landedOf salePrice ∧
    4 ≤ landedOf salePrice ∧
    roiOf salePrice = profitOf salePrice / landedOf salePrice := by
  have h3 : (3:ℚ) ≤ buyPriceOf salePrice := le_max_left _ _
  have h4 : (4:ℚ) ≤ landedOf salePrice := by
    unfold landedOf
    linarith
  refine ⟨rfl, by unfold landedOf; ring, rfl, h4, ?_⟩
  unfold roiOf
  rw [if_pos (by linarith)]

/-- Witness for `unitEconomics_spec` at sale price $10. -/
theorem unitEconomics_spec_witness :
    roiOf 10 = profitOf 10 / landedOf 10 :=
  (unitEconomics_spec 10 (by norm_num)).2.2.2.2

/-- A record whose buy-box history ends in the sentinel −1 while the
buy-box statistic holds a positive price. -/
def pNegHistory : RawProduct :=
  { asin := "B000000003", title := none, offers := none,
    buyBoxPriceHistory := some [-1],
    stats := some { buyBoxPrice := some 2999, current_NEW := some 1999 } }

/-- Claim C3, counterexample: the most recent buy-box history entry is
the sentinel −1 (non-positive), the buy-box statistic is a positive
2999 cents, yet the resolved price is −1 cent: the later positive
source is never consulted, contradicting the claimed
first-positive-wins resolution order. -/
theorem salePrice_claim_counterexample :
    pNegHistory.stats.bind Stats.buyBoxPrice = some 2999 ∧
    priceCents pNegHistory = -1 ∧
    salePriceOf pNegHistory = -1/100 ∧
    (-1/100 : ℚ) ≤ 0 := by
  have hpc : priceCents pNegHistory = -1 := rfl
  refine ⟨rfl, hpc, ?_, by norm_num⟩
  unfold salePriceOf
  rw [hpc]
  norm_num

/-- Helper: a non-empty history's last entry is taken, regardless of
sign, and `stats.buyBoxPrice` is ignored. -/
theorem bbCents_of_history (p : RawProduct) (l : List ℤ) (x : ℤ)
    (hl : p.buyBoxPriceHistory = some l) (hx : l.getLast? = some x) :
    bbCents p = x := by
  unfold bbCents
  rw [hl]
  have hne : l.isEmpty = false := by
    cases l with
    | nil => cases hx
    | cons a t => rfl
  simp [hne, hx]

/-- Helper: with no (or an empty) history the buy-box statistic is
taken, absent mapped to 0. -/
theorem bbCents_no_history (p : RawProduct)
    (hl : p.buyBoxPriceHistory = none ∨ p.buyBoxPriceHistory = some []) :
    bbCents p = (p.stats.bind Stats.buyBoxPrice).getD 0 := by
  unfold bbCents
  rcases hl with h | h <;> simp [h]

/-- Claim C3 (amended): if the buy-box price history is a non-empty
array its last entry is selected outright (the buy-box statistic is
never consulted, and a non-zero negative sentinel is kept); otherwise
the buy-box statistic is selected; only a zero or absent selected value
falls through to the current-new-price statistic. -/
theorem priceResolution_spec (p : RawProduct) :
    (∀ l : List ℤ, ∀ x : ℤ, p.buyBoxPriceHistory = some l → l.getLast? = some x →
      priceCents p = if x ≠ 0 then x else newCents p) ∧
    ((p.buyBoxPriceHistory = none ∨ p.buyBoxPriceHistory = some []) →
      priceCents p =
        if (p.stats.bind Stats.buyBoxPrice).getD 0 ≠ 0 then
          (p.stats.bind Stats.buyBoxPrice).getD 0
        else newCents p) := by
  constructor
  · intro l x hl hx
    unfold priceCents
    rw [bbCents_of_history p l x hl hx]
  · intro hl
    unfold priceCents
    rw [bbCents_no_history p hl]

/-- A record with a two-entry buy-box history and a conflicting buy-box
statistic. -/
def pHistory : RawProduct :=
  { asin := "B000000011", title := none, offers := none,
    buyBoxPriceHistory := some [1500, 2999],
    stats := some { buyBoxPrice := some 123, current_NEW := some 1999 } }

/-- Witness for `priceResolution_spec`: the last history entry 2999
wins even though the buy-box statistic says 123. -/
theorem priceResolution_spec_witness :
    priceCents pHistory = if (2999:ℤ) ≠ 0 then 2999 else newCents pHistory :=
  (priceResolution_spec pHistory).1 [1500, 2999] 2999 rfl rfl

/-- A record with a present 90-day drop counter of 0 and a 30-day
counter of 7. -/
def pDropsZero : RawProduct :=
  { asin := "B000000009", title := none, offers := none, buyBoxPriceHistory := none,
    stats := some { drops90 := some 0, drops30 := some 7 } }

/-- Claim C9, counterexample: a record with a present 90-day drop
counter equal to 0 and a 30-day counter of 7 yields 7 drops per month,
the 30-day fallback, not the claimed 0: the ternary tests truthiness,
so a present zero 90-day figure does not win. -/
theorem dropsPerMonth_claim_counterexample :
    pDropsZero.stats.bind Stats.drops90 = some 0 ∧
    dropsPerMonthOf pDropsZero = some 7 ∧
    (some (7:ℤ)) ≠ some 0 :=
  ⟨rfl, rfl, by decide⟩

/-- Claim C9 (amended): the 90-day counter, divided by 3 and rounded,
is used whenever it is present and non-zero; when it is absent or zero
the native 30-day counter (possibly absent) is used instead. -/
theorem dropsPerMonth_spec (p : RawProduct) :
    (∀ n : ℤ, p.stats.bind Stats.drops90 = some n → n ≠ 0 →
      dropsPerMonthOf p = some (jsRound ((n : ℚ) / 3))) ∧
    (p.stats.bind Stats.drops90 = some 0 →
      dropsPerMonthOf p = p.stats.bind Stats.drops30) ∧
    (p.stats.bind Stats.drops90 = none →
      dropsPerMonthOf p = p.stats.bind Stats.drops30) := by
  refine ⟨?_, ?_, ?_⟩
  · intro n hn hne
    unfold dropsPerMonthOf
    rw [hn]
    simp [hne]
  · intro h0
    unfold dropsPerMonthOf
    rw [h0]
    simp
  · intro hnone
    unfold dropsPerMonthOf
    rw [hnone]
    simp

/-- A record with both drop counters present and the 90-day one
non-zero. -/
def pDrops90 : RawProduct :=
  { asin := "B000000010", title := none, offers := none, buyBoxPriceHistory := none,
    stats := some { drops90 := some 30, drops30 := some 7 } }

/-- Witness for `dropsPerMonth_spec`: a present 90-day counter of 30
gives round(30 / 3) drops per month, ignoring the 30-day counter. -/
theorem dropsPerMonth_spec_witness :
    dropsPerMonthOf pDrops90 = some (jsRound (((30:ℤ) : ℚ) / 3)) :=
  (dropsPerMonth_spec pDrops90).1 30 rfl (by decide)

end Arb

namespace Arb

/-- A record with no price data at all and a `null` entry in its offers
list: both FBA-count statistics are absent, so line 91 evaluates the
unguarded `offers.filter(o => o.isFBA)`. -/
def pNoPriceNullOffer : RawProduct :=
  { asin := "B000000004", title := none, offers := some [none],
    buyBoxPriceHistory := none, stats := none }

/-- Claim C4: the price of this record resolves to 0 (absent), so the
claim requires the degenerate "No price data" Deal; instead the
normaliser throws a TypeError on the `null` offers entry before the
price check of line 99 is ever reached. -/
theorem productToDeal_noPrice_throws :
    salePriceOf pNoPriceNullOffer = 0 ∧
    productToDeal pNoPriceNullOffer =
      Except.error "TypeError: Cannot read properties of null (reading 'isFBA')" := by
  constructor
  · unfold salePriceOf
    norm_num [show priceCents pNoPriceNullOffer = 0 from rfl]
  · rfl

/-- A record with a perfectly good price whose offers list contains a
`null` entry and whose stats carry no FBA offer counts. -/
def pNullOffer : RawProduct :=
  { asin := "B000000007", title := some "Widget",
    offers := some [none, some { isFBA := true, isBuyBoxWinner := false }],
    buyBoxPriceHistory := some [2999],
    stats := some { rating := some 45, reviewCount := some 120,
                    drops90 := some 30, current_SALES := some 5000 } }

/-- Claim C7: the normaliser is claimed never to throw, even on records
whose live-offers list contains `null` entries; but when both FBA-count
statistics are absent, line 91 runs `offers.filter(o => o.isFBA)`
without the `o && ...` guard used on lines 89-90, and reading `isFBA`
off the `null` entry throws a TypeError. -/
theorem productToDeal_nullOffer_throws :
    productToDeal pNullOffer =
      Except.error "TypeError: Cannot read properties of null (reading 'isFBA')" := rfl

/-- The provider lookup that finds no record for any identifier. -/
def noProducts : String → List RawProduct := fun _ => []

/-- Claim C8, counterexample: when the provider returns no record for
"NOTREAL1" the handler does answer 404, but the error string is
"No Keepa product found for NOTREAL1", not the claimed
"No product found for NOTREAL1". -/
theorem arbitrageScore_claim_counterexample :
    (arbitrageScore noProducts (some "NOTREAL1")).status = 404 ∧
    (arbitrageScore noProducts (some "NOTREAL1")).error =
      some "No Keepa product found for NOTREAL1" ∧
    ("No Keepa product found for NOTREAL1" : String) ≠ "No product found for NOTREAL1" :=
  ⟨rfl, rfl, by decide⟩

/-- Claim C8 (amended): for every provider lookup that returns no record
for "NOTREAL1", the response is 404 with error exactly
"No Keepa product found for NOTREAL1" and no deal; the not-found case is
an ordinary response, not a thrown failure. -/
theorem arbitrageScore_notFound (fetch : String → List RawProduct)
    (h : fetch "NOTREAL1" = []) :
    arbitrageScore fetch (some "NOTREAL1") =
      { status := 404, error := some "No Keepa product found for NOTREAL1",
        deal := none } := by
  have ht : jsToUpper (jsTrim "NOTREAL1") = "NOTREAL1" := rfl
  simp only [arbitrageScore]
  rw [if_neg (by decide : ¬("NOTREAL1" : String) = ""), ht, h]
  rfl

/-- Witness for `arbitrageScore_notFound` with the empty provider. -/
theorem arbitrageScore_notFound_witness :
    arbitrageScore noProducts (some "NOTREAL1") =
      { status := 404, error := some "No Keepa product found for NOTREAL1",
        deal := none } :=
  arbitrageScore_notFound noProducts rfl

end Arb

namespace Arb

/-- Helper: the sort-then-filter assembly of lines 173-176 yields a list
sorted descending by score in which every deal passes both caller
filters. -/
theorem assembleDeals_spec (dealsAll : List Deal) (minScore : ℚ) (filt : Option String) :
    (assembleDeals dealsAll minScore filt).Pairwise scoreGE ∧
    (∀ d ∈ assembleDeals dealsAll minScore filt, minScore ≤ (d.score : ℚ)) ∧
    (∀ f, filt = some f → ∀ d ∈ assembleDeals dealsAll minScore filt, d.decision = f) := by
  refine ⟨?_, ?_, ?_⟩
  · exact List.Pairwise.filter _
      (List.Pairwise.filter _ (List.sorted_insertionSort scoreGE dealsAll))
  · intro d hd
    unfold assembleDeals at hd
    have h2 := (List.mem_filter.mp hd).2
    by_cases hc : minScore ≤ (d.score : ℚ)
    · exact hc
    · simp [hc] at h2
  · intro f hf d hd
    subst hf
    unfold assembleDeals at hd
    have h2 := (List.mem_filter.mp (List.mem_filter.mp hd).1).2
    exact eq_of_beq h2

/-- Claim C5: every successful response of `GET /deals/today` lists the
deals sorted by score in descending order; every returned deal has
score at least `minScore`; and when a decision filter is supplied every
returned deal's decision equals the filter exactly. -/
theorem dealsToday_spec (products : List RawProduct) (minScore : ℚ)
    (decisionFilter : Option String) (deals : List Deal)
    (h : dealsToday products minScore decisionFilter = Except.ok deals) :
    deals.Pairwise scoreGE ∧
    (∀ d ∈ deals, minScore ≤ (d.score : ℚ)) ∧
    (∀ f, decisionFilter = some f → ∀ d ∈ deals, d.decision = f) := by
  unfold dealsToday at h
  split at h
  · simp at h
  · injection h with h
    subst h
    exact assembleDeals_spec _ _ _

/-- Witness for `dealsToday_spec`: the handler run on an empty product
batch succeeds with the empty deals list, which satisfies all three
properties. -/
theorem dealsToday_spec_witness :
    List.Pairwise scoreGE ([] : List Deal) ∧
    (∀ d ∈ ([] : List Deal), (5:ℚ) ≤ (d.score : ℚ)) ∧
    (∀ f, (some "BUY" : Option String) = some f → ∀ d ∈ ([] : List Deal), d.decision = f) :=
  dealsToday_spec [] 5 (some "BUY") [] rfl

end Arb
